import Mathlib

/-!
Shallow embedding of the busca-semantica-langchain-postgres repository
(src/search.py, src/chat.py, src/ingest.py, src/utils.py): a small RAG
command-line tool over an external pgvector store.

External collaborators (the vector store, embedding services, chat models)
are modelled as oracle functions; Python exceptions are modelled with an
explicit error type and Except.  Print side effects that matter to the
claims are modelled as lists of output lines; verbose-only prints (the
v_print side channel) are omitted, as they never affect return values or
control flow.
-/

namespace Rag

/-- The process environment: os.getenv returns none when a variable is unset. -/
abbrev Env := String → Option String

/-- Python truthiness of an os.getenv result: None and the empty string are falsy. -/
def truthy : Option String → Bool
  | none => false
  | some s => s != ""

/-- Embedding of Python str.lower (ASCII case folding suffices for the strings
this program compares). -/
def pyLower (s : String) : String := ⟨s.data.map Char.toLower⟩

/-- Embedding of Python str.strip: drop whitespace from both ends. -/
def pyStrip (s : String) : String :=
  ⟨((s.data.dropWhile Char.isWhitespace).reverse.dropWhile Char.isWhitespace).reverse⟩

/-- Embedding of Python str.join over a list of strings. -/
def pyJoin (sep : String) : List String → String
  | [] => ""
  | [a] => a
  | a :: b :: rest => a ++ sep ++ pyJoin sep (b :: rest)

/-- Python exception values relevant to this program. -/
inductive PyError where
  | environmentError (msg : String)
  | valueError (msg : String)
  | connectionError (msg : String) (cause : PyError)
  | eofError
  | runtimeError (msg : String)
  deriving Repr, DecidableEq

/-- Rendering of an exception inside a Python f-string, that is str(e). -/
def pyStr : PyError → String
  | .environmentError m => m
  | .valueError m => m
  | .connectionError m _ => m
  | .eofError => "EOF when reading a line"
  | .runtimeError m => m

/-- Similarity scores are provider-defined numbers, passed through unchanged and
never computed on by this repository; an integer stand-in suffices. -/
abbrev Score := Int

/-- A langchain Document as the search path sees it: page content plus string
metadata (values in their rendered form). -/
structure Document where
  page_content : String
  metadata : List (String × String)
  deriving Repr, DecidableEq

/-- Python dict.get with a default, over the metadata association list. -/
def dictGet (m : List (String × String)) (k d : String) : String :=
  match m.find? (fun p => p.1 == k) with
  | some p => p.2
  | none => d

/-- Embedding of os.path.basename for POSIX paths: the text after the last slash. -/
def basename (p : String) : String :=
  ⟨(p.data.reverse.takeWhile (fun c => c != '/')).reverse⟩

/-- Configured embedding clients; openAIEmbeddings none stands for the
library-default model of OpenAIEmbeddings(). -/
inductive EmbeddingsModel where
  | googleGenerativeAI (model : String)
  | openAIEmbeddings (model : Option String)
  deriving Repr, DecidableEq

/-- Configured chat clients; chatOpenAI with no model argument uses the library
default. -/
inductive ChatModel where
  | chatGoogleGenerativeAI (model : String) (temperature : Nat)
  | chatOpenAI (temperature : Nat)
  deriving Repr, DecidableEq

/-- The invalid-provider ValueError raised by every provider-selection function. -/
def invalidProviderErr : PyError :=
  .valueError "Provedor inválido. Escolha 'google' ou 'openai'."

/-- src/search.py line 18: the required database environment variables, in their
defined order (identical lists in ingest.py and utils.py). -/
def db_vars : List String :=
  ["POSTGRES_USER", "POSTGRES_PASSWORD", "POSTGRES_HOST", "POSTGRES_PORT", "POSTGRES_DB"]

/-- Python rendering of an optional string in an f-string: None prints as None. -/
def pyShowOpt : Option String → String
  | none => "None"
  | some s => s

/-- src/search.py get_connection_string (textually identical in ingest.py and
utils.py). -/
def get_connection_string (env : Env) : String :=
  "postgresql+psycopg://" ++ pyShowOpt (env "POSTGRES_USER") ++ ":" ++
    pyShowOpt (env "POSTGRES_PASSWORD") ++ "@" ++ pyShowOpt (env "POSTGRES_HOST") ++ ":" ++
    pyShowOpt (env "POSTGRES_PORT") ++ "/" ++ pyShowOpt (env "POSTGRES_DB")

/-- src/search.py check_env_vars (textually identical in ingest.py and utils.py). -/
def check_env_vars (env : Env) (provider : String) : Except PyError Unit :=
  if !(db_vars.all fun v => truthy (env v)) then
    .error (.environmentError ("Variáveis de banco de dados ausentes: " ++
      pyJoin ", " (db_vars.filter fun v => !(truthy (env v)))))
  else if provider == "google" && !(truthy (env "GOOGLE_API_KEY")) then
    .error (.environmentError "Para o provedor 'google', a GOOGLE_API_KEY é necessária.")
  else if provider == "openai" && !(truthy (env "OPENAI_API_KEY")) then
    .error (.environmentError "Para o provedor 'openai', a OPENAI_API_KEY é necessária.")
  else
    .ok ()

namespace Search

/-- src/search.py get_embeddings_model. -/
def get_embeddings_model (provider : String) : Except PyError EmbeddingsModel :=
  if provider == "google" then .ok (.googleGenerativeAI "models/embedding-001")
  else if provider == "openai" then .ok (.openAIEmbeddings none)
  else .error invalidProviderErr

end Search

namespace Ingest

/-- src/ingest.py get_embeddings_model. -/
def get_embeddings_model (provider : String) : Except PyError EmbeddingsModel :=
  if provider == "google" then .ok (.googleGenerativeAI "models/embedding-001")
  else if provider == "openai" then .ok (.openAIEmbeddings none)
  else .error invalidProviderErr

end Ingest

namespace Utils

/-- src/utils.py get_embeddings_model. -/
def get_embeddings_model (provider : String) : Except PyError EmbeddingsModel :=
  if provider == "google" then .ok (.googleGenerativeAI "models/embedding-001")
  else if provider == "openai" then .ok (.openAIEmbeddings (some "text-embedding-3-small"))
  else .error invalidProviderErr

end Utils

namespace Chat

/-- src/chat.py get_chat_model. -/
def get_chat_model (provider : String) : Except PyError ChatModel :=
  if provider == "google" then .ok (.chatGoogleGenerativeAI "gemini-2.5-flash" 0)
  else if provider == "openai" then .ok (.chatOpenAI 0)
  else .error invalidProviderErr

/-- src/chat.py format_context: the pure return value (the verbose prints are a
side channel that does not affect it). -/
def format_context (docs_with_scores : List (Document × Score)) : String :=
  pyJoin "\n\n---\n\n" (docs_with_scores.map fun ds =>
    ds.1.page_content ++ "\n(Fonte: " ++ basename (dictGet ds.1.metadata "source" "N/A") ++
      ", Página: " ++ dictGet ds.1.metadata "page" "N/A" ++ ")")

end Chat

/-- The external vector-store handle: PGVector.similarity_search_with_score as an
oracle from (query, k) to either results or a raised exception. -/
abbrev Store := String → Nat → Except PyError (List (Document × Score))

/-- PGVector handle construction as an oracle taking the embeddings client, the
collection name and the connection string. -/
abbrev Connect := EmbeddingsModel → String → String → Except PyError Store

/-- The state a successfully constructed DocumentSearcher holds
(src/search.py lines 60 to 69). -/
structure DocumentSearcher where
  embeddings : EmbeddingsModel
  connection_string : String
  collection_name : String
  db : Store

/-- src/search.py DocumentSearcher.__init__ (lines 52 to 72).  The second
component counts PGVector construction attempts, making the fail-fast and
single-attempt behaviour observable. -/
def DocumentSearcher.construct (env : Env) (connect : Connect)
    (provider collection_name : String) : Except PyError DocumentSearcher × Nat :=
  match check_env_vars env provider with
  | .error e => (.error e, 0)
  | .ok _ =>
    match Search.get_embeddings_model provider with
    | .error e => (.error e, 0)
    | .ok embeddings =>
      let connection_string := get_connection_string env
      match connect embeddings collection_name connection_string with
      | .ok db => (.ok ⟨embeddings, connection_string, collection_name, db⟩, 1)
      | .error e =>
        (.error (.connectionError
          ("Não foi possível conectar ao banco de dados: " ++ pyStr e) e), 1)

/-- src/search.py DocumentSearcher.search_documents (lines 74 to 81): calls the
handle and returns its result; no try block, no post-processing. -/
def DocumentSearcher.search_documents (self : DocumentSearcher) (query : String)
    (k : Nat) : Except PyError (List (Document × Score)) :=
  self.db query k

namespace Chat

/-- The exit tokens of the interactive loop (src/chat.py line 99). -/
def exit_tokens : List String := ["sair", "exit", "quit"]

/-- The exit test: question.lower() in exit_tokens. -/
def isExitCmd (question : String) : Bool := exit_tokens.contains (pyLower question)

/-- The chat chain (prompt | llm | StrOutputParser) as an oracle on the filled
prompt text. -/
abbrev Chain := String → Except PyError String

/-- src/chat.py lines 75 to 89: the fixed prompt template. -/
def prompt_template : String :=
  "CONTEXTO:\n{context}\n\nREGRAS:\n- Responda somente com base no CONTEXTO.\n- Se a informação não estiver explicitamente no CONTEXTO, responda:\n  \"Não tenho informações necessárias para responder sua pergunta.\"\n- Nunca invente ou use conhecimento externo.\n- Nunca produza opiniões ou interpretações além do que está escrito.\n\nPERGUNTA DO USUÁRIO:\n{question}\n\nRESPONDA A \"PERGUNTA DO USUÁRIO\"\n"

/-- Filling the prompt template with the context block and the question. -/
def fill_prompt (context question : String) : String :=
  (prompt_template.replace "{context}" context).replace "{question}" question

/-- Outcome of running the interactive loop for a given amount of fuel. -/
inductive RunResult where
  | finished (output : List String) (searchCalls chatCalls : Nat)
  | outOfFuel (output : List String) (searchCalls chatCalls : Nat)
  deriving Repr, DecidableEq

/-- src/chat.py lines 96 to 117: the interactive loop, fuel-indexed.  input holds
the remaining stdin lines; when it is empty, input() raises EOFError, which the
per-turn except clause catches (EOFError is an Exception), printing the error and
retrying with the same exhausted stream.  output accumulates printed lines;
searchCalls counts embedding-plus-store queries, chatCalls counts chat-model
invocations. -/
def chat_loop (searcher : DocumentSearcher) (chain : Chain) :
    Nat → List String → List String → Nat → Nat → RunResult
  | 0, _, out, sc, cc => .outOfFuel out sc cc
  | fuel + 1, [], out, sc, cc =>
      chat_loop searcher chain fuel []
        (out ++ ["\nOcorreu um erro durante o chat: " ++ pyStr .eofError]) sc cc
  | fuel + 1, question :: rest, out, sc, cc =>
      if isExitCmd question then
        .finished (out ++ ["Encerrando o chat. Até logo!"]) sc cc
      else if pyStrip question == "" then
        chat_loop searcher chain fuel rest out sc cc
      else
        match searcher.search_documents question 10 with
        | .error e =>
            chat_loop searcher chain fuel rest
              (out ++ ["\nOcorreu um erro durante o chat: " ++ pyStr e]) (sc + 1) cc
        | .ok relevant_docs =>
            let context := if relevant_docs.isEmpty then "" else format_context relevant_docs
            match chain (fill_prompt context question) with
            | .error e =>
                chat_loop searcher chain fuel rest
                  (out ++ ["\nOcorreu um erro durante o chat: " ++ pyStr e]) (sc + 1) (cc + 1)
            | .ok response =>
                chat_loop searcher chain fuel rest
                  (out ++ ["\nResposta:", response]) (sc + 1) (cc + 1)

/-- Termination of the interactive loop on a given input stream: some amount of
fuel makes it reach the break statement. -/
def ChatTerminates (searcher : DocumentSearcher) (chain : Chain)
    (input : List String) : Prop :=
  ∃ fuel out sc cc, chat_loop searcher chain fuel input [] 0 0 = .finished out sc cc

/-- How a whole run of main ends. -/
inductive MainOutcome where
  | returned
  | outOfFuel
  | crashed (e : PyError)
  deriving Repr, DecidableEq

/-- Observable behaviour of a run of main: printed lines, network-call counts and
how the run ended. -/
structure MainRun where
  output : List String
  searchCalls : Nat
  chatCalls : Nat
  outcome : MainOutcome
  deriving Repr, DecidableEq

/-- The exception classes caught by the startup try block of src/chat.py lines 68
to 73: ConnectionError and ValueError. -/
def caughtAtStartup : PyError → Bool
  | .connectionError _ _ => true
  | .valueError _ => true
  | _ => false

/-- src/chat.py main (lines 40 to 117, non-verbose path): environment check,
searcher and chat-model startup, banner prints, then the interactive loop. -/
def chat_main (env : Env) (connect : Connect) (chainOf : ChatModel → Chain)
    (provider : String) (fuel : Nat) (input : List String) : MainRun :=
  match check_env_vars env provider with
  | .error e =>
      { output := ["Erro de configuração: " ++ pyStr e],
        searchCalls := 0, chatCalls := 0, outcome := .returned }
  | .ok _ =>
    match (DocumentSearcher.construct env connect provider "documentos_pdf").1 with
    | .error e =>
        if caughtAtStartup e then
          { output := ["Erro na inicialização: " ++ pyStr e],
            searchCalls := 0, chatCalls := 0, outcome := .returned }
        else
          { output := [], searchCalls := 0, chatCalls := 0, outcome := .crashed e }
    | .ok searcher =>
      match get_chat_model provider with
      | .error e =>
          if caughtAtStartup e then
            { output := ["Erro na inicialização: " ++ pyStr e],
              searchCalls := 0, chatCalls := 0, outcome := .returned }
          else
            { output := [], searchCalls := 0, chatCalls := 0, outcome := .crashed e }
      | .ok llm =>
        let banner := ["--- Chat com Documento PDF (Provedor: " ++ provider ++ ") ---",
                       "Digite sua pergunta ou 'sair' para terminar."]
        match chat_loop searcher (chainOf llm) fuel input [] 0 0 with
        | .finished out sc cc =>
            { output := banner ++ out, searchCalls := sc, chatCalls := cc,
              outcome := .returned }
        | .outOfFuel out sc cc =>
            { output := banner ++ out, searchCalls := sc, chatCalls := cc,
              outcome := .outOfFuel }

end Chat

/-! Concrete fixtures used by the witness and counterexample theorems below. -/

/-- A store oracle that finds nothing. -/
def store0 : Store := fun _ _ => .ok []

/-- A store oracle that raises on every query. -/
def storeFail : Store := fun _ _ => .error (.runtimeError "connection refused")

/-- A one-chunk result, as ingested from a PDF. -/
def docA : Document := ⟨"O céu é azul.", [("source", "docs/document.pdf"), ("page", "1")]⟩

/-- A store oracle that returns the single chunk docA. -/
def store1 : Store := fun _ _ => .ok [(docA, 1)]

/-- A searcher over the empty store. -/
def searcher0 : DocumentSearcher :=
  ⟨.googleGenerativeAI "models/embedding-001", "postgresql+psycopg://u:p@h:5432/d",
    "documentos_pdf", store0⟩

/-- A searcher whose store raises on every query. -/
def searcherFail : DocumentSearcher :=
  ⟨.googleGenerativeAI "models/embedding-001", "postgresql+psycopg://u:p@h:5432/d",
    "documentos_pdf", storeFail⟩

/-- A searcher over the one-chunk store. -/
def searcher1 : DocumentSearcher :=
  ⟨.googleGenerativeAI "models/embedding-001", "postgresql+psycopg://u:p@h:5432/d",
    "documentos_pdf", store1⟩

/-- A chat chain that always answers. -/
def chain0 : Chat.Chain := fun _ => .ok "ok"

/-- A chat-chain factory that always answers. -/
def chainOf0 : ChatModel → Chat.Chain := fun _ _ => .ok "resp"

/-- A Connect oracle that succeeds with the empty store. -/
def connect0 : Connect := fun _ _ _ => .ok store0

/-- A Connect oracle whose handle creation fails. -/
def connectFail : Connect := fun _ _ _ => .error (.runtimeError "could not connect to server")

/-- An environment with every variable set (to nonempty strings) except the
OpenAI key. -/
def envFull : Env := fun v => if v == "OPENAI_API_KEY" then none else some "x"

/-- An empty environment: every variable unset. -/
def envNone : Env := fun _ => none

/-- An environment with POSTGRES_HOST and POSTGRES_DB missing. -/
def envTwoMissing : Env := fun v =>
  if v == "POSTGRES_USER" then some "user"
  else if v == "POSTGRES_PASSWORD" then some "secret"
  else if v == "POSTGRES_PORT" then some "5432"
  else none

/-- An environment with all database variables and the Google key set, the
OpenAI key unset. -/
def envGoogleOnly : Env := fun v =>
  if v == "GOOGLE_API_KEY" then some "google-key"
  else if v == "OPENAI_API_KEY" then none
  else some "x"

/-- The searcher state that construct builds from envFull and connect0. -/
def searcherG : DocumentSearcher :=
  ⟨.googleGenerativeAI "models/embedding-001", "postgresql+psycopg://x:x@x:x/x",
    "documentos_pdf", store0⟩

/-! Helper lemmas shared by the claim theorems. -/

/-- Every error check_env_vars raises is a configuration (environment) error. -/
theorem check_env_vars_error_shape (env : Env) (provider : String) (e : PyError)
    (h : check_env_vars env provider = .error e) : ∃ m, e = .environmentError m := by
  unfold check_env_vars at h
  split at h
  · exact ⟨_, (Except.error.injEq _ _).mp h |>.symm⟩
  · split at h
    · exact ⟨_, (Except.error.injEq _ _).mp h |>.symm⟩
    · split at h
      · exact ⟨_, (Except.error.injEq _ _).mp h |>.symm⟩
      · cases h

namespace Chat

/-- If no input line is an exit token, every amount of fuel is exhausted: each
iteration either consumes a non-exit line or catches the EOFError raised on the
exhausted stream and retries. -/
theorem chat_loop_no_exit (searcher : DocumentSearcher) (chain : Chain) :
    ∀ (fuel : Nat) (input out : List String) (sc cc : Nat),
      (∀ q ∈ input, isExitCmd q = false) →
      ∃ out2 sc2 cc2, chat_loop searcher chain fuel input out sc cc = .outOfFuel out2 sc2 cc2 := by
  intro fuel
  induction fuel with
  | zero => exact fun input out sc cc _ => ⟨out, sc, cc, rfl⟩
  | succ n ih =>
    intro input out sc cc h
    match input with
    | [] => simpa only [chat_loop] using ih [] _ _ _ (by simp)
    | q :: rest =>
      have hq : isExitCmd q = false := h q (List.mem_cons_self q rest)
      have hrest : ∀ x ∈ rest, isExitCmd x = false := fun x hx => h x (List.mem_cons_of_mem q hx)
      simp only [chat_loop, hq, Bool.false_eq_true, if_false]
      split
      · exact ih rest out sc cc hrest
      · cases hs : searcher.search_documents q 10 with
        | error e => simp only [hs]; exact ih rest _ _ _ hrest
        | ok docs =>
          simp only [hs]
          cases hc : chain (fill_prompt (if docs.isEmpty then "" else format_context docs) q) with
          | error e => simp only [hc]; exact ih rest _ _ _ hrest
          | ok resp => simp only [hc]; exact ih rest _ _ _ hrest

/-- If some input line is an exit token, fuel equal to the input length reaches
the break statement: each earlier iteration consumes exactly one line. -/
theorem chat_loop_exit_reached (searcher : DocumentSearcher) (chain : Chain) :
    ∀ (input out : List String) (sc cc : Nat),
      (∃ q ∈ input, isExitCmd q = true) →
      ∃ out2 sc2 cc2,
        chat_loop searcher chain input.length input out sc cc = .finished out2 sc2 cc2 := by
  intro input
  induction input with
  | nil => rintro out sc cc ⟨q, hq, _⟩; cases hq
  | cons q rest ih =>
    intro out sc cc h
    by_cases hq : isExitCmd q = true
    · exact ⟨out ++ ["Encerrando o chat. Até logo!"], sc, cc, by simp [chat_loop, hq]⟩
    · have hq' : isExitCmd q = false := by simpa using hq
      have h' : ∃ x ∈ rest, isExitCmd x = true := by
        rcases h with ⟨x, hx, hxe⟩
        rcases List.mem_cons.mp hx with rfl | hx'
        · exact absurd hxe hq
        · exact ⟨x, hx', hxe⟩
      simp only [List.length_cons, chat_loop, hq', Bool.false_eq_true, if_false]
      split
      · exact ih out sc cc h'
      · cases hs : searcher.search_documents q 10 with
        | error e => simp only [hs]; exact ih _ _ _ h'
        | ok docs =>
          simp only [hs]
          cases hc : chain (fill_prompt (if docs.isEmpty then "" else format_context docs) q) with
          | error e => simp only [hc]; exact ih _ _ _ h'
          | ok resp => simp only [hc]; exact ih _ _ _ h'

/-- C3 (amended): the interactive loop terminates exactly when the input contains
a line that case-insensitively matches an exit token; with the input exhausted
and no exit token seen, the EOFError raised by input() is caught by the per-turn
handler and the loop retries forever. -/
theorem chat_loop_terminates_iff (searcher : DocumentSearcher) (chain : Chain)
    (input : List String) :
    ChatTerminates searcher chain input ↔ ∃ q ∈ input, isExitCmd q = true := by
  constructor
  · rintro ⟨fuel, o, s, c, hrun⟩
    by_contra hno
    push_neg at hno
    obtain ⟨o2, s2, c2, h2⟩ := chat_loop_no_exit searcher chain fuel input [] 0 0
      (fun q hq => by simpa using hno q hq)
    rw [hrun] at h2
    cases h2
  · intro h
    obtain ⟨o2, s2, c2, h2⟩ := chat_loop_exit_reached searcher chain input [] 0 0 h
    exact ⟨input.length, o2, s2, c2, h2⟩

end Chat

/-- C3 (counterexample): on the empty input stream, that is input exhausted
immediately with no exit token, the loop never terminates, contrary to the claim
that end-of-input ends the loop. -/
theorem chat_loop_eof_never_terminates : ¬ Chat.ChatTerminates searcher0 chain0 [] := by
  rintro ⟨fuel, o, s, c, hrun⟩
  obtain ⟨o2, s2, c2, h2⟩ := Chat.chat_loop_no_exit searcher0 chain0 fuel [] [] 0 0 (by simp)
  rw [hrun] at h2
  cases h2

/-- C1: search_documents is a faithful pass-through of the store: it returns the
result sequence of the store for the query unmodified; assuming the store honours
the requested limit, the result never has more than k elements; and any store or
embedding failure propagates to the caller unmodified. -/
theorem search_documents_passthrough (searcher : DocumentSearcher) (query : String) (k : Nat)
    (hstore : ∀ res, searcher.db query k = .ok res → res.length ≤ k) :
    searcher.search_documents query k = searcher.db query k ∧
    (∀ res, searcher.search_documents query k = .ok res → res.length ≤ k) ∧
    (∀ e, searcher.db query k = .error e → searcher.search_documents query k = .error e) :=
  ⟨rfl, fun res h => hstore res h, fun _ h => h⟩

/-- C1 (witness): the pass-through equality at a concrete searcher and query. -/
theorem search_documents_passthrough_witness :
    searcher1.search_documents "qualquer coisa" 10 = searcher1.db "qualquer coisa" 10 :=
  (search_documents_passthrough searcher1 "qualquer coisa" 10
    (fun res h => by injection h with h2; subst h2; decide)).1

/-- C2: construction validates the environment first and, on a missing variable,
fails with a configuration error after zero store-connection attempts; otherwise,
with the environment valid and the provider accepted, exactly one connection
attempt is made, and a failing attempt makes construction fail with a connection
error wrapping the underlying cause. -/
theorem construct_fail_fast (env : Env) (connect : Connect)
    (provider collection_name : String) :
    (∀ e, check_env_vars env provider = .error e →
      DocumentSearcher.construct env connect provider collection_name = (.error e, 0) ∧
      ∃ m, e = .environmentError m) ∧
    (∀ emb, check_env_vars env provider = .ok () →
      Search.get_embeddings_model provider = .ok emb →
      (DocumentSearcher.construct env connect provider collection_name).2 = 1 ∧
      ∀ e, connect emb collection_name (get_connection_string env) = .error e →
        DocumentSearcher.construct env connect provider collection_name =
          (.error (.connectionError
            ("Não foi possível conectar ao banco de dados: " ++ pyStr e) e), 1)) := by
  constructor
  · intro e he
    exact ⟨by simp [DocumentSearcher.construct, he], check_env_vars_error_shape env provider e he⟩
  · intro emb hc hm
    constructor
    · simp only [DocumentSearcher.construct, hc, hm]
      cases connect emb collection_name (get_connection_string env) <;> rfl
    · intro e he
      simp [DocumentSearcher.construct, hc, hm, he]

/-- C2 (witness): with every variable unset, construction fails with the
configuration error and zero connection attempts; with a full environment and a
failing store, it fails with the wrapping connection error after one attempt. -/
theorem construct_fail_fast_witness :
    DocumentSearcher.construct envNone connect0 "google" "documentos_pdf" =
      (.error (.environmentError
        "Variáveis de banco de dados ausentes: POSTGRES_USER, POSTGRES_PASSWORD, POSTGRES_HOST, POSTGRES_PORT, POSTGRES_DB"), 0) ∧
    DocumentSearcher.construct envFull connectFail "google" "documentos_pdf" =
      (.error (.connectionError
        "Não foi possível conectar ao banco de dados: could not connect to server"
        (.runtimeError "could not connect to server")), 1) := by
  constructor
  · exact ((construct_fail_fast envNone connect0 "google" "documentos_pdf").1 _ rfl).1
  · exact ((construct_fail_fast envFull connectFail "google" "documentos_pdf").2
      (.googleGenerativeAI "models/embedding-001") rfl rfl).2
      (.runtimeError "could not connect to server") rfl

/-- C4: a turn whose search call or chat-model call raises is caught at the
per-turn boundary: the error is printed and the loop continues with the next
iteration on the remaining input, never terminating the loop. -/
theorem chat_turn_error_recovered (searcher : DocumentSearcher) (chain : Chat.Chain)
    (question : String) (rest out : List String) (sc cc fuel : Nat)
    (hexit : Chat.isExitCmd question = false) (hblank : (pyStrip question == "") = false) :
    (∀ e, searcher.search_documents question 10 = .error e →
      Chat.chat_loop searcher chain (fuel + 1) (question :: rest) out sc cc =
        Chat.chat_loop searcher chain fuel rest
          (out ++ ["\nOcorreu um erro durante o chat: " ++ pyStr e]) (sc + 1) cc) ∧
    (∀ docs e, searcher.search_documents question 10 = .ok docs →
      chain (Chat.fill_prompt (if docs.isEmpty then "" else Chat.format_context docs) question) =
        .error e →
      Chat.chat_loop searcher chain (fuel + 1) (question :: rest) out sc cc =
        Chat.chat_loop searcher chain fuel rest
          (out ++ ["\nOcorreu um erro durante o chat: " ++ pyStr e]) (sc + 1) (cc + 1)) := by
  constructor
  · intro e he
    simp [Chat.chat_loop, hexit, hblank, he]
  · intro docs e hs hc
    simp only [Chat.chat_loop, hexit, Bool.false_eq_true, if_false, hblank, hs]
    rw [hc]

/-- C4 (witness): a failing search on the first line is printed and the loop goes
on to process the rest of the input. -/
theorem chat_turn_error_recovered_witness :
    Chat.chat_loop searcherFail chain0 2 ["pergunta", "sair"] [] 0 0 =
      Chat.chat_loop searcherFail chain0 1 ["sair"]
        ["\nOcorreu um erro durante o chat: connection refused"] 1 0 :=
  (chat_turn_error_recovered searcherFail chain0 "pergunta" ["sair"] [] 0 0 1
    (by decide) (by decide)).1 (.runtimeError "connection refused") rfl

/-- C5: for every provider and environment, if any required database variable is
missing, check_env_vars fails with a configuration error whose message lists
exactly the missing variables in their defined order; if none is missing, no
database-variable error is raised (the result is ok or one of the two
provider-key errors). -/
theorem check_env_vars_missing_db (env : Env) (provider : String) :
    ((∃ v ∈ db_vars, truthy (env v) = false) →
      check_env_vars env provider =
        .error (.environmentError ("Variáveis de banco de dados ausentes: " ++
          pyJoin ", " (db_vars.filter fun v => !(truthy (env v)))))) ∧
    ((∀ v ∈ db_vars, truthy (env v) = true) →
      check_env_vars env provider = .ok () ∨
      check_env_vars env provider =
        .error (.environmentError "Para o provedor 'google', a GOOGLE_API_KEY é necessária.") ∨
      check_env_vars env provider =
        .error (.environmentError "Para o provedor 'openai', a OPENAI_API_KEY é necessária.")) := by
  constructor
  · rintro ⟨v, hv, hfalse⟩
    have hall : (db_vars.all fun v => truthy (env v)) = false := by
      rcases h : db_vars.all fun v => truthy (env v) with _ | _
      · rfl
      · exact absurd (List.all_eq_true.mp h v hv) (by simp [hfalse])
    simp [check_env_vars, hall]
  · intro h
    have hall : (db_vars.all fun v => truthy (env v)) = true := List.all_eq_true.mpr h
    simp only [check_env_vars, hall, Bool.not_true, Bool.false_eq_true, if_false]
    split
    · right; left; rfl
    · split
      · right; right; rfl
      · left; rfl

/-- C5 (witness): with host and database name missing, the message lists exactly
POSTGRES_HOST, POSTGRES_DB, in that order. -/
theorem check_env_vars_missing_db_witness :
    check_env_vars envTwoMissing "google" =
      .error (.environmentError
        "Variáveis de banco de dados ausentes: POSTGRES_HOST, POSTGRES_DB") := by
  have hmem : "POSTGRES_HOST" ∈ db_vars := by decide
  have hmiss : truthy (envTwoMissing "POSTGRES_HOST") = false := by decide
  have heq : PyError.environmentError ("Variáveis de banco de dados ausentes: " ++
      pyJoin ", " (db_vars.filter fun v => !(truthy (envTwoMissing v)))) =
      PyError.environmentError "Variáveis de banco de dados ausentes: POSTGRES_HOST, POSTGRES_DB" := by
    decide
  exact ((check_env_vars_missing_db envTwoMissing "google").1 ⟨_, hmem, hmiss⟩).trans
    (congrArg (fun z : PyError => (Except.error z : Except PyError Unit)) heq)

/-- C6: with all database variables set, check_env_vars for provider google fails
citing the Google key exactly when GOOGLE_API_KEY is falsy, and for provider
openai fails citing the OpenAI key exactly when OPENAI_API_KEY is falsy; each
check depends only on its own key, so the two are independent. -/
theorem check_env_vars_provider_keys (env : Env)
    (hdb : ∀ v ∈ db_vars, truthy (env v) = true) :
    (truthy (env "GOOGLE_API_KEY") = false →
      check_env_vars env "google" =
        .error (.environmentError "Para o provedor 'google', a GOOGLE_API_KEY é necessária.")) ∧
    (truthy (env "GOOGLE_API_KEY") = true → check_env_vars env "google" = .ok ()) ∧
    (truthy (env "OPENAI_API_KEY") = false →
      check_env_vars env "openai" =
        .error (.environmentError "Para o provedor 'openai', a OPENAI_API_KEY é necessária.")) ∧
    (truthy (env "OPENAI_API_KEY") = true → check_env_vars env "openai" = .ok ()) := by
  have hall : (db_vars.all fun v => truthy (env v)) = true := List.all_eq_true.mpr hdb
  refine ⟨fun hg => by simp [check_env_vars, hall, hg],
          fun hg => by simp [check_env_vars, hall, hg],
          fun ho => by simp [check_env_vars, hall, ho],
          fun ho => by simp [check_env_vars, hall, ho]⟩

/-- C6 (witness): setting the Google key does not satisfy the OpenAI check. -/
theorem check_env_vars_provider_keys_witness :
    check_env_vars envGoogleOnly "google" = .ok () ∧
    check_env_vars envGoogleOnly "openai" =
      .error (.environmentError "Para o provedor 'openai', a OPENAI_API_KEY é necessária.") := by
  have t := check_env_vars_provider_keys envGoogleOnly (by decide)
  exact ⟨t.2.1 (by decide), t.2.2.1 (by decide)⟩

/-- C7: every provider-selection function fails with the invalid-argument
ValueError for any provider outside google and openai, and succeeds (never
raising that error) for both providers inside. -/
theorem provider_dispatch (provider : String) :
    (provider ≠ "google" → provider ≠ "openai" →
      Search.get_embeddings_model provider = .error invalidProviderErr ∧
      Ingest.get_embeddings_model provider = .error invalidProviderErr ∧
      Utils.get_embeddings_model provider = .error invalidProviderErr ∧
      Chat.get_chat_model provider = .error invalidProviderErr) ∧
    (provider = "google" ∨ provider = "openai" →
      (∃ m, Search.get_embeddings_model provider = .ok m) ∧
      (∃ m, Ingest.get_embeddings_model provider = .ok m) ∧
      (∃ m, Utils.get_embeddings_model provider = .ok m) ∧
      (∃ m, Chat.get_chat_model provider = .ok m)) := by
  constructor
  · intro hg ho
    simp [Search.get_embeddings_model, Ingest.get_embeddings_model,
      Utils.get_embeddings_model, Chat.get_chat_model, hg, ho]
  · rintro (rfl | rfl) <;>
      exact ⟨⟨_, rfl⟩, ⟨_, rfl⟩, ⟨_, rfl⟩, ⟨_, rfl⟩⟩

/-- C7 (witness): the four selection functions all reject the provider
anthropic with the invalid-argument error. -/
theorem provider_dispatch_witness :
    Search.get_embeddings_model "anthropic" = .error invalidProviderErr ∧
    Ingest.get_embeddings_model "anthropic" = .error invalidProviderErr ∧
    Utils.get_embeddings_model "anthropic" = .error invalidProviderErr ∧
    Chat.get_chat_model "anthropic" = .error invalidProviderErr :=
  (provider_dispatch "anthropic").1 (by decide) (by decide)

/-- C8: format_context of the empty sequence is the empty string, and on a
nonempty sequence each entry is the chunk text, a newline, and the rendered
source and page suffix, with entries joined by the fixed separator and input
order preserved. -/
theorem format_context_spec :
    Chat.format_context [] = "" ∧
    ∀ (doc : Document) (score : Score) (rest : List (Document × Score)),
      Chat.format_context ((doc, score) :: rest) =
        (doc.page_content ++ "\n(Fonte: " ++ basename (dictGet doc.metadata "source" "N/A") ++
          ", Página: " ++ dictGet doc.metadata "page" "N/A" ++ ")") ++
        (if rest = [] then "" else "\n\n---\n\n" ++ Chat.format_context rest) := by
  refine ⟨rfl, fun doc score rest => ?_⟩
  cases rest with
  | nil => simp [Chat.format_context, pyJoin]
  | cons b l =>
    simp only [Chat.format_context, List.map_cons, pyJoin, List.cons_ne_self, if_neg,
      reduceCtorEq, ite_false, String.append_assoc]

/-- C9: a run of main whose startup succeeds and whose first input line is sair
prints the banner and the farewell line, terminates within a single loop
iteration, and makes no embedding call, no vector-store query and no chat-model
invocation. -/
theorem chat_exit_immediate (env : Env) (connect : Connect) (chainOf : ChatModel → Chat.Chain)
    (provider : String) (rest : List String) (searcher : DocumentSearcher) (llm : ChatModel)
    (hcheck : check_env_vars env provider = .ok ())
    (hinit : (DocumentSearcher.construct env connect provider "documentos_pdf").1 = .ok searcher)
    (hllm : Chat.get_chat_model provider = .ok llm) :
    Chat.chat_main env connect chainOf provider 1 ("sair" :: rest) =
      { output := ["--- Chat com Documento PDF (Provedor: " ++ provider ++ ") ---",
                   "Digite sua pergunta ou 'sair' para terminar.",
                   "Encerrando o chat. Até logo!"],
        searchCalls := 0, chatCalls := 0, outcome := .returned } := by
  have hsair : Chat.isExitCmd "sair" = true := by decide
  simp [Chat.chat_main, hcheck, hinit, hllm, Chat.chat_loop, hsair]

/-- C9 (witness): the immediate-exit run at a concrete environment, store and
chain. -/
theorem chat_exit_immediate_witness :
    Chat.chat_main envFull connect0 chainOf0 "google" 1 ["sair"] =
      { output := ["--- Chat com Documento PDF (Provedor: google) ---",
                   "Digite sua pergunta ou 'sair' para terminar.",
                   "Encerrando o chat. Até logo!"],
        searchCalls := 0, chatCalls := 0, outcome := .returned } := by
  have h := chat_exit_immediate envFull connect0 chainOf0 "google" [] searcherG
    (.chatGoogleGenerativeAI "gemini-2.5-flash" 0) rfl rfl rfl
  exact h

/-- C10: for both valid providers the ingestion module and the search module
configure the same embedding client: for google the fixed model
models/embedding-001, for openai the library default. -/
theorem embeddings_model_agreement :
    Ingest.get_embeddings_model "google" = Search.get_embeddings_model "google" ∧
    Search.get_embeddings_model "google" = .ok (.googleGenerativeAI "models/embedding-001") ∧
    Ingest.get_embeddings_model "openai" = Search.get_embeddings_model "openai" ∧
    Search.get_embeddings_model "openai" = .ok (.openAIEmbeddings none) :=
  ⟨rfl, rfl, rfl, rfl⟩

end Rag
